import Mathlib

/-
  Verification development for the GoTriMet ingestion pipeline
  (subscriber.py, load_to_postgres.py).

  The Python source is shallowly embedded: pandas DataFrames become lists of
  typed row structures (or, where the behaviour under scrutiny is about column
  names, a record of column names); the relational store becomes lists of rows
  keyed by their primary key; machine floats on the telemetry fields become ℚ;
  exceptions become Except.
-/

/- ----------------------------------------------------------------
   Buffer (subscriber.py): `message_buffer` guarded by `df_lock`.
   `process_message` appends to the buffer; `process_buffer` drains it
   (`df = pd.DataFrame(message_buffer); message_buffer = []`).
   The state also records, as history, every batch drained so far so that
   conservation of records across drain boundaries can be stated.
   ---------------------------------------------------------------- -/

structure BufState (α : Type) where
  message_buffer : List α
  drained : List (List α)
deriving Repr, DecidableEq

/-- `process_message` body: `message_buffer.append(json_obj)` (under `df_lock`). -/
def process_message {α : Type} (s : BufState α) (r : α) : BufState α :=
  { s with message_buffer := s.message_buffer ++ [r] }

/-- The drain step at the top of `process_buffer`:
`df = pd.DataFrame(message_buffer); message_buffer = []` — returns the current
batch and installs an empty buffer. -/
def drain_and_reset {α : Type} (s : BufState α) : List α × BufState α :=
  (s.message_buffer, ⟨[], s.drained ++ [s.message_buffer]⟩)

inductive BufOp (α : Type) where
  | msg (r : α)
  | flush
deriving Repr, DecidableEq

def buf_step {α : Type} (s : BufState α) : BufOp α → BufState α
  | .msg r => process_message s r
  | .flush => (drain_and_reset s).2

def run_buffer {α : Type} (ops : List (BufOp α)) : BufState α :=
  ops.foldl buf_step ⟨[], []⟩

/-- The records appended by a sequence of operations, in order. -/
def appended_records {α : Type} (ops : List (BufOp α)) : List α :=
  ops.filterMap fun o => match o with
    | .msg r => some r
    | .flush => none

theorem buffer_foldl_conservation {α : Type} (ops : List (BufOp α)) :
    ∀ s : BufState α,
      ((ops.foldl buf_step s).drained.flatten ++ (ops.foldl buf_step s).message_buffer)
        = s.drained.flatten ++ (s.message_buffer ++ appended_records ops) := by
  induction ops with
  | nil => intro s; simp [appended_records]
  | cons op rest ih =>
      intro s
      cases op with
      | msg r =>
          simpa [buf_step, process_message, appended_records, List.append_assoc]
            using ih { s with message_buffer := s.message_buffer ++ [r] }
      | flush =>
          simpa [buf_step, drain_and_reset, appended_records, List.append_assoc]
            using ih (⟨[], s.drained ++ [s.message_buffer]⟩ : BufState α)

theorem run_buffer_conservation {α : Type} (ops : List (BufOp α)) :
    (run_buffer ops).drained.flatten ++ (run_buffer ops).message_buffer
      = appended_records ops := by
  have h := buffer_foldl_conservation (α := α) ops (⟨[], []⟩ : BufState α)
  simpa [run_buffer] using h

/-- C1: for every sequence of appends interleaved with drain-and-reset
operations, finishing with a final drain (the shutdown flush), the
concatenation of all drained batches is exactly the list of all appended
records — so as a multiset every appended record appears in exactly one
drained batch, no loss and no duplication across drain boundaries. -/
theorem c1_buffer_no_loss_no_duplication {α : Type} [DecidableEq α]
    (ops : List (BufOp α)) :
    (run_buffer (ops ++ [BufOp.flush])).drained.flatten = appended_records ops
      ∧ ∀ r : α,
        ((run_buffer (ops ++ [BufOp.flush])).drained.flatten).count r
          = (appended_records ops).count r := by
  have h := run_buffer_conservation (α := α) (ops ++ [BufOp.flush])
  have hbuf : (run_buffer (ops ++ [BufOp.flush])).message_buffer = [] := by
    simp [run_buffer, List.foldl_append, buf_step, drain_and_reset]
  have happ : appended_records (ops ++ [BufOp.flush]) = appended_records ops := by
    simp [appended_records, List.filterMap_append]
  rw [hbuf, happ] at h
  have hmain : (run_buffer (ops ++ [BufOp.flush])).drained.flatten
      = appended_records ops := by simpa using h
  exact ⟨hmain, fun r => by rw [hmain]⟩

/- ----------------------------------------------------------------
   Speed derivation (subscriber.py): `compute_speed` and
   `add_speed_column`.  A row of one trip group carries the fields the
   computation touches: TSTAMP (sort key), ACT_TIME (time deltas) and
   METERS (distance deltas); floats become ℚ.
   ---------------------------------------------------------------- -/

structure SpeedRow where
  tstamp : ℚ
  act_time : ℚ
  meters : ℚ
deriving Repr, DecidableEq

/-- One step of the loop body in `compute_speed`:
`speed = delta_m / delta_t if delta_t > 0 else 0.0`. -/
def speed_step (prev cur : SpeedRow) : ℚ :=
  if cur.act_time - prev.act_time > 0 then
    (cur.meters - prev.meters) / (cur.act_time - prev.act_time)
  else 0

/-- `compute_speed(group)`: `speeds = [0.0]`, then one `speed_step` per
consecutive pair, then `speeds[0] = speeds[1]` when `len(speeds) > 1`. -/
def compute_speed (group : List SpeedRow) : List ℚ :=
  let speeds := (0 : ℚ) :: List.zipWith speed_step group group.tail
  match speeds with
  | _ :: s1 :: rest => s1 :: s1 :: rest
  | l => l

/-- Stable insertion of a row into a timestamp-sorted list (a row is placed
before the first strictly-later row, so input order is preserved on ties). -/
def insert_by_tstamp (r : SpeedRow) : List SpeedRow → List SpeedRow
  | [] => [r]
  | x :: xs =>
      if x.tstamp < r.tstamp then x :: insert_by_tstamp r xs
      else r :: x :: xs

/-- The effect of `df.sort_values(by=["TSTAMP", "EVENT_NO_TRIP"])` restricted
to the rows of one trip group: the group sorted by TSTAMP (stably; ties keep
arrival order, which pandas leaves implementation-defined). -/
def sort_by_tstamp : List SpeedRow → List SpeedRow
  | [] => []
  | x :: xs => insert_by_tstamp x (sort_by_tstamp xs)

/-- `add_speed_column` restricted to one trip group: sort by timestamp, then
`compute_speed` (groupby preserves the sorted order within each group). -/
def add_speed_group (group : List SpeedRow) : List ℚ :=
  compute_speed (sort_by_tstamp group)

/-- The worked example of the spec: distances [0,100,250,400] at
times [0,10,10,30] seconds (timestamp = seconds within one service date). -/
def example_trip_rows : List SpeedRow :=
  [⟨0, 0, 0⟩, ⟨10, 10, 100⟩, ⟨10, 10, 250⟩, ⟨30, 30, 400⟩]

def dflt_row : SpeedRow := ⟨0, 0, 0⟩

theorem zipWith_consecutive_getD (f : SpeedRow → SpeedRow → ℚ) :
    ∀ (l : List SpeedRow) (i : Nat), i + 1 < l.length →
      (List.zipWith f l l.tail).getD i 0
        = f (l.getD i dflt_row) (l.getD (i + 1) dflt_row) := by
  intro l
  induction l with
  | nil => intro i h; simp at h
  | cons a t ih =>
      intro i h
      cases t with
      | nil => simp at h
      | cons b t2 =>
          cases i with
          | zero => simp
          | succ j =>
              have h2 : j + 1 < (b :: t2).length := by
                simp at h ⊢; omega
              simpa using ih j h2

theorem sort_example_eq : sort_by_tstamp example_trip_rows = example_trip_rows := by
  norm_num [example_trip_rows, sort_by_tstamp, insert_by_tstamp]

theorem compute_speed_two_le (l : List SpeedRow) (h : 2 ≤ l.length) :
    compute_speed l
      = (List.zipWith speed_step l l.tail).getD 0 0
          :: List.zipWith speed_step l l.tail := by
  match l, h with
  | a :: b :: t, _ => simp [compute_speed]

/-- C2: for every trip group, the speed stage sorts the group's rows by
timestamp and assigns to each row after the first
`(distance[i] - distance[i-1]) / (time[i] - time[i-1])`, or 0 when the time
delta is non-positive; the first row receives the second row's speed when a
second row exists, else 0; and on the worked example — distances
[0,100,250,400] at times [0,10,10,30] — the derived speeds are [10,10,0,7.5]. -/
theorem c2_speed_derivation :
    (∀ (g : List SpeedRow) (i : Nat), 1 ≤ i → i < (sort_by_tstamp g).length →
        (add_speed_group g).getD i 0
          = (if ((sort_by_tstamp g).getD i dflt_row).act_time
                  - ((sort_by_tstamp g).getD (i - 1) dflt_row).act_time > 0 then
               (((sort_by_tstamp g).getD i dflt_row).meters
                  - ((sort_by_tstamp g).getD (i - 1) dflt_row).meters)
                 / (((sort_by_tstamp g).getD i dflt_row).act_time
                      - ((sort_by_tstamp g).getD (i - 1) dflt_row).act_time)
             else 0))
    ∧ (∀ g : List SpeedRow,
        (add_speed_group g).getD 0 0
          = if 2 ≤ (sort_by_tstamp g).length then (add_speed_group g).getD 1 0
            else 0)
    ∧ add_speed_group example_trip_rows = [10, 10, 0, 7.5] := by
  refine ⟨?_, ?_, ?_⟩
  case refine_3 =>
    unfold add_speed_group
    rw [sort_example_eq]
    norm_num [compute_speed, speed_step, example_trip_rows]
  · intro g i h1 h2
    obtain ⟨j, rfl⟩ : ∃ j, i = j + 1 := ⟨i - 1, by omega⟩
    have hlen : 2 ≤ (sort_by_tstamp g).length := by omega
    have hshape := compute_speed_two_le (sort_by_tstamp g) hlen
    have hz := zipWith_consecutive_getD speed_step (sort_by_tstamp g) j h2
    simp only [add_speed_group, hshape, List.getD_cons_succ]
    rw [hz]
    simp [speed_step]
  · intro g
    rcases hs : sort_by_tstamp g with - | ⟨a, - | ⟨b, t⟩⟩
    · simp [add_speed_group, hs, compute_speed]
    · simp [add_speed_group, hs, compute_speed]
    · have hlen : 2 ≤ (sort_by_tstamp g).length := by rw [hs]; simp
      have hshape := compute_speed_two_le (sort_by_tstamp g) hlen
      simp [add_speed_group, hshape, hlen]

theorem c2_speed_derivation_witness :
    (add_speed_group example_trip_rows).getD 2 0
      = (if ((sort_by_tstamp example_trip_rows).getD 2 dflt_row).act_time
              - ((sort_by_tstamp example_trip_rows).getD (2 - 1) dflt_row).act_time
              > 0 then
           (((sort_by_tstamp example_trip_rows).getD 2 dflt_row).meters
              - ((sort_by_tstamp example_trip_rows).getD (2 - 1) dflt_row).meters)
             / (((sort_by_tstamp example_trip_rows).getD 2 dflt_row).act_time
                  - ((sort_by_tstamp example_trip_rows).getD (2 - 1) dflt_row).act_time)
         else 0) :=
  c2_speed_derivation.1 example_trip_rows 2 (by norm_num)
    (by rw [sort_example_eq]; norm_num [example_trip_rows])

/- ----------------------------------------------------------------
   Loader (load_to_postgres.py): `require_env`, `load_breadcrumb_data`,
   `load_stop_event_data`.  The relational store is a record of three
   tables, each a list of typed rows; an insert with
   ON CONFLICT ... DO NOTHING appends a row only when its key is absent.
   Timestamps act purely as keys in the loader and are modelled as ℤ
   (seconds); GPS and speed values ride along as ℚ.
   ---------------------------------------------------------------- -/

/-- One row of the transformed DataFrame as it reaches
`load_breadcrumb_data` (column names already lower-cased). -/
structure InRow where
  tstamp : ℤ
  gps_latitude : ℚ
  gps_longitude : ℚ
  speed : ℚ
  event_no_trip : ℤ
  vehicle_id : ℤ
  service_key : String
deriving Repr, DecidableEq

structure TripRow where
  trip_id : ℤ
  route_id : ℤ
  vehicle_id : ℤ
  service_key : String
  direction : String
deriving Repr, DecidableEq

structure BcRow where
  tstamp : ℤ
  latitude : ℚ
  longitude : ℚ
  speed : ℚ
  trip_id : ℤ
deriving Repr, DecidableEq

structure StopEventRow where
  trip_id : ℤ
  vehicle_number : ℤ
  route_number : ℤ
  service_key : String
  direction : ℤ
deriving Repr, DecidableEq

structure Store where
  trip : List TripRow
  breadcrumb : List BcRow
  stop_event : List StopEventRow
deriving Repr, DecidableEq

/-- `df.drop_duplicates(subset=key)`: keep the first row carrying each key
(`seen` accumulates the keys already kept). -/
def drop_duplicates_on {α κ : Type} [DecidableEq κ] (key : α → κ) :
    List κ → List α → List α
  | _, [] => []
  | seen, x :: xs =>
      if key x ∈ seen then drop_duplicates_on key seen xs
      else x :: drop_duplicates_on key (key x :: seen) xs

/-- The breadcrumb projection/rename:
`df.rename(gps_latitude→latitude, gps_longitude→longitude,
event_no_trip→trip_id)[[tstamp, latitude, longitude, speed, trip_id]]`. -/
def to_breadcrumb (r : InRow) : BcRow :=
  ⟨r.tstamp, r.gps_latitude, r.gps_longitude, r.speed, r.event_no_trip⟩

/-- The trip projection: `trip_df = df[[trip_id, vehicle_id, service_key]]`
followed by `trip_df['route_id'] = -1` and `trip_df['direction'] = '0'`. -/
def to_trip (r : InRow) : TripRow :=
  ⟨r.event_no_trip, -1, r.vehicle_id, r.service_key, "0"⟩

/-- `trip_df.drop_duplicates(subset="trip_id")`. -/
def trip_staged (df : List InRow) : List TripRow :=
  drop_duplicates_on TripRow.trip_id [] (df.map to_trip)

/-- `breadcrumb_df.drop_duplicates(subset=["tstamp", "trip_id"])`. -/
def breadcrumb_dedup (df : List InRow) : List BcRow :=
  drop_duplicates_on (fun b => (b.tstamp, b.trip_id)) [] (df.map to_breadcrumb)

/-- `breadcrumb_df[breadcrumb_df['trip_id'].isin(trip_df['trip_id'])]`:
the pre-load referential filter against the current Trip batch. -/
def breadcrumb_staged (df : List InRow) : List BcRow :=
  (breadcrumb_dedup df).filter
    fun b => decide (b.trip_id ∈ (trip_staged df).map TripRow.trip_id)

/-- The process environment as seen by `os.getenv`. -/
abbrev Env := List (String × String)

def getenv (env : Env) (v : String) : Option String :=
  (env.find? fun p => p.1 == v).map Prod.snd

/-- `require_env`: return the variable's value or raise
`EnvironmentError("Missing required environment variable: ...")`. -/
def require_env (env : Env) (v : String) : Except String String :=
  match getenv env v with
  | none => .error ("Missing required environment variable: " ++ v)
  | some x => .ok x

/-- The argument evaluation of `psycopg2.connect(dbname=..., user=...,
password=..., host=...)`: the four `require_env` calls in source order;
the first missing variable raises before any connection is opened. -/
def connect_env (env : Env) : Except String Unit :=
  match require_env env "DB_NAME" with
  | .error e => .error e
  | .ok _ =>
    match require_env env "DB_USER" with
    | .error e => .error e
    | .ok _ =>
      match require_env env "DB_PASSWORD" with
      | .error e => .error e
      | .ok _ =>
        match require_env env "DB_HOST" with
        | .error e => .error e
        | .ok _ => .ok ()

/-- `INSERT INTO t SELECT * FROM tmp ON CONFLICT (key) DO NOTHING`:
fold over the staged rows, appending a row only when no row with its key is
already in the table. -/
def insert_on_conflict {α κ : Type} [DecidableEq κ] (key : α → κ)
    (table : List α) (rows : List α) : List α :=
  rows.foldl (fun tbl r => if key r ∈ tbl.map key then tbl else tbl ++ [r]) table

/-- Result of one `load_breadcrumb_data` call: the store afterwards, whether a
connection was opened, the two logged row counts (taken with
`SELECT COUNT(*) FROM tmp_*` — i.e. counts of staged rows, before the
conflict-skipping insert), and the Python return value (0 or 1). -/
structure LoadResult where
  store : Store
  connected : Bool
  new_trip_rows : Nat
  new_breadcrumb_rows : Nat
  ret : ℤ
deriving Repr, DecidableEq

/-- `load_breadcrumb_data(df)`.  Table creation, temp tables, COPY and index
creation are idempotent store plumbing and are not modelled beyond the
`connected` flag; `SET session_replication_role = 'replica'` disables the
foreign-key check, so the breadcrumb insert needs no trip pre-existence. -/
def load_breadcrumb_data (env : Env) (store : Store) (df : List InRow) :
    Except String LoadResult :=
  let breadcrumb_df := breadcrumb_staged df
  let trip_df := trip_staged df
  if breadcrumb_df.isEmpty then
    -- `if breadcrumb_df.empty: ... return 0` — reached before any connection
    .ok ⟨store, false, 0, 0, 0⟩
  else
    match connect_env env with
    | .error e => .error e
    | .ok _ =>
      let new_trip_rows := trip_df.length
      let new_breadcrumb_rows := breadcrumb_df.length
      let trip2 := insert_on_conflict TripRow.trip_id store.trip trip_df
      let bc2 := insert_on_conflict (fun b => (b.tstamp, b.trip_id))
        store.breadcrumb breadcrumb_df
      .ok ⟨⟨trip2, bc2, store.stop_event⟩, true,
        new_trip_rows, new_breadcrumb_rows, 1⟩

/-- The `try/except` of `process_buffer` around the pipeline: any exception
raised below it — in particular an `EnvironmentError` out of
`load_breadcrumb_data` — is caught and logged, the drained batch is discarded,
and the subscriber keeps running.  The returned flag records whether the
process aborted (it never does on this path). -/
def process_buffer_catch (env : Env) (store : Store) (df : List InRow) :
    Store × Bool :=
  match load_breadcrumb_data env store df with
  | .ok r => (r.store, false)
  | .error _ => (store, false)

theorem drop_duplicates_sublist_mem {α κ : Type} [DecidableEq κ] (key : α → κ) :
    ∀ (l : List α) (seen : List κ) (a : α),
      a ∈ drop_duplicates_on key seen l → a ∈ l := by
  intro l
  induction l with
  | nil => intro seen a h; simp [drop_duplicates_on] at h
  | cons x xs ih =>
      intro seen a h
      by_cases hk : key x ∈ seen
      · simp only [drop_duplicates_on, if_pos hk] at h
        exact List.mem_cons_of_mem x (ih seen a h)
      · simp only [drop_duplicates_on, if_neg hk, List.mem_cons] at h
        rcases h with rfl | h
        · exact List.mem_cons_self a xs
        · exact List.mem_cons_of_mem x (ih _ a h)

theorem drop_duplicates_key_covered {α κ : Type} [DecidableEq κ] (key : α → κ) :
    ∀ (l : List α) (seen : List κ) (a : α), a ∈ l →
      key a ∈ seen ∨ key a ∈ (drop_duplicates_on key seen l).map key := by
  intro l
  induction l with
  | nil => intro seen a h; simp at h
  | cons x xs ih =>
      intro seen a h
      by_cases hk : key x ∈ seen
      · rcases List.mem_cons.1 h with rfl | hmem
        · exact Or.inl hk
        · simpa only [drop_duplicates_on, if_pos hk] using ih seen a hmem
      · rcases List.mem_cons.1 h with rfl | hmem
        · right
          simp [drop_duplicates_on, if_neg hk]
        · rcases ih (key x :: seen) a hmem with hs | hd
          · rcases List.mem_cons.1 hs with heq | hs2
            · right
              simp [drop_duplicates_on, if_neg hk, heq]
            · exact Or.inl hs2
          · right
            simp only [drop_duplicates_on, if_neg hk, List.map_cons, List.mem_cons]
            exact Or.inr hd

theorem trip_key_present (df : List InRow) (r : InRow) (h : r ∈ df) :
    r.event_no_trip ∈ (trip_staged df).map TripRow.trip_id := by
  have hmem : to_trip r ∈ df.map to_trip := List.mem_map_of_mem to_trip h
  have hcov := drop_duplicates_key_covered TripRow.trip_id (df.map to_trip) []
    (to_trip r) hmem
  rcases hcov with hs | hd
  · simp at hs
  · simpa [to_trip, trip_staged] using hd

/-- C9 (implicit): the pre-load referential filter in `load_breadcrumb_data`
never removes a row — the Trip batch is built from the same frame, so every
breadcrumb row's trip id is present in it — and hence the empty-set abort
branch is reachable exactly when the input frame itself has no rows. -/
theorem c9_referential_filter_never_removes (df : List InRow) :
    breadcrumb_staged df = breadcrumb_dedup df
      ∧ (breadcrumb_staged df = [] ↔ df = []) := by
  have hfilter : breadcrumb_staged df = breadcrumb_dedup df := by
    apply List.filter_eq_self.mpr
    intro b hb
    have hbl : b ∈ df.map to_breadcrumb :=
      drop_duplicates_sublist_mem _ (df.map to_breadcrumb) [] b hb
    rcases List.mem_map.1 hbl with ⟨r, hr, rfl⟩
    simpa [to_breadcrumb] using trip_key_present df r hr
  refine ⟨hfilter, ?_, ?_⟩
  · intro h
    rw [hfilter] at h
    cases df with
    | nil => rfl
    | cons r rs =>
        simp [breadcrumb_dedup, drop_duplicates_on] at h
  · intro h
    subst h
    rfl

/-- C8: a batch whose breadcrumb set is empty after deduplication and
trip-membership filtering makes `load_breadcrumb_data` return 0 before any
connection is opened: the store is untouched and both reported counts are 0. -/
theorem c8_empty_after_filter_aborts (env : Env) (store : Store)
    (df : List InRow) (h : breadcrumb_staged df = []) :
    load_breadcrumb_data env store df
      = .ok ⟨store, false, 0, 0, 0⟩ := by
  simp [load_breadcrumb_data, h]

theorem c8_empty_after_filter_aborts_witness :
    breadcrumb_staged ([] : List InRow) = []
      ∧ load_breadcrumb_data [] ⟨[], [], []⟩ ([] : List InRow)
          = .ok ⟨⟨[], [], []⟩, false, 0, 0, 0⟩ :=
  ⟨rfl, c8_empty_after_filter_aborts [] ⟨[], [], []⟩ [] rfl⟩

theorem insert_on_conflict_cons {α κ : Type} [DecidableEq κ] (key : α → κ)
    (table : List α) (r : α) (rs : List α) :
    insert_on_conflict key table (r :: rs)
      = insert_on_conflict key
          (if key r ∈ table.map key then table else table ++ [r]) rs := rfl

theorem insert_on_conflict_mem {α κ : Type} [DecidableEq κ] (key : α → κ) :
    ∀ (rows table : List α) (a : α),
      a ∈ insert_on_conflict key table rows → a ∈ table ∨ a ∈ rows := by
  intro rows
  induction rows with
  | nil => intro table a h; exact Or.inl h
  | cons r rs ih =>
      intro table a h
      rw [insert_on_conflict_cons] at h
      rcases ih _ a h with h1 | h1
      · by_cases hc : key r ∈ table.map key
        · rw [if_pos hc] at h1
          exact Or.inl h1
        · rw [if_neg hc] at h1
          rcases List.mem_append.1 h1 with h2 | h2
          · exact Or.inl h2
          · simp only [List.mem_singleton] at h2
            subst h2
            exact Or.inr (List.mem_cons_self a rs)
      · exact Or.inr (List.mem_cons_of_mem r h1)

theorem insert_on_conflict_keys_mono {α κ : Type} [DecidableEq κ] (key : α → κ) :
    ∀ (rows table : List α) (k : κ), k ∈ table.map key →
      k ∈ (insert_on_conflict key table rows).map key := by
  intro rows
  induction rows with
  | nil => intro table k h; exact h
  | cons r rs ih =>
      intro table k h
      rw [insert_on_conflict_cons]
      apply ih
      by_cases hc : key r ∈ table.map key
      · rwa [if_pos hc]
      · rw [if_neg hc]
        simp [h]

theorem insert_on_conflict_keys_present {α κ : Type} [DecidableEq κ] (key : α → κ) :
    ∀ (rows table : List α) (r : α), r ∈ rows →
      key r ∈ (insert_on_conflict key table rows).map key := by
  intro rows
  induction rows with
  | nil => intro table r h; simp at h
  | cons x xs ih =>
      intro table r h
      rw [insert_on_conflict_cons]
      rcases List.mem_cons.1 h with rfl | hmem
      · apply insert_on_conflict_keys_mono
        by_cases hc : key r ∈ table.map key
        · rwa [if_pos hc]
        · rw [if_neg hc]
          simp
      · exact ih _ r hmem

theorem insert_on_conflict_noop {α κ : Type} [DecidableEq κ] (key : α → κ) :
    ∀ (rows table : List α), (∀ r ∈ rows, key r ∈ table.map key) →
      insert_on_conflict key table rows = table := by
  intro rows
  induction rows with
  | nil => intro table _; rfl
  | cons x xs ih =>
      intro table h
      rw [insert_on_conflict_cons, if_pos (h x (List.mem_cons_self x xs))]
      exact ih table fun r hr => h r (List.mem_cons_of_mem x hr)

theorem insert_on_conflict_idem {α κ : Type} [DecidableEq κ] (key : α → κ)
    (table rows : List α) :
    insert_on_conflict key (insert_on_conflict key table rows) rows
      = insert_on_conflict key table rows :=
  insert_on_conflict_noop key rows _
    fun r hr => insert_on_conflict_keys_present key rows table r hr

/-- C10 (implicit): every Trip row staged by the breadcrumb load path carries
the placeholder values route_id = -1 and direction = '0', whatever the batch
contains; consequently any trip row present after a breadcrumb load either
pre-existed or is such a placeholder row — non-placeholder route/direction
values cannot enter through this path. -/
theorem c10_breadcrumb_path_placeholders :
    (∀ (df : List InRow), ∀ t ∈ trip_staged df,
        t.route_id = -1 ∧ t.direction = "0")
    ∧ ∀ (env : Env) (store : Store) (df : List InRow) (res : LoadResult),
        load_breadcrumb_data env store df = .ok res →
        ∀ t ∈ res.store.trip,
          t ∈ store.trip ∨ (t.route_id = -1 ∧ t.direction = "0") := by
  have hstaged : ∀ (df : List InRow), ∀ t ∈ trip_staged df,
      t.route_id = -1 ∧ t.direction = "0" := by
    intro df t ht
    have hmem := drop_duplicates_sublist_mem TripRow.trip_id
      (df.map to_trip) [] t ht
    rcases List.mem_map.1 hmem with ⟨r, _, rfl⟩
    exact ⟨rfl, rfl⟩
  refine ⟨hstaged, ?_⟩
  intro env store df res h t ht
  simp only [load_breadcrumb_data] at h
  split at h
  · injection h with h2
    subst h2
    exact Or.inl ht
  · split at h
    · exact absurd h (by simp)
    · injection h with h2
      subst h2
      simp only at ht
      rcases insert_on_conflict_mem TripRow.trip_id (trip_staged df)
          store.trip t ht with htbl | hstg
      · exact Or.inl htbl
      · exact Or.inr (hstaged df t hstg)

/-- A concrete transformed row used by several concrete evaluations. -/
def row1 : InRow := ⟨5, 45, -122, 3, 7, 9, "Weekday"⟩

def df1 : List InRow := [row1]

theorem c10_breadcrumb_path_placeholders_witness :
    (to_trip row1).route_id = -1 ∧ (to_trip row1).direction = "0" := by
  have hm : to_trip row1 ∈ trip_staged df1 := by
    simp [trip_staged, drop_duplicates_on, df1]
  exact c10_breadcrumb_path_placeholders.1 df1 (to_trip row1) hm

/-- C3 amended: loading the same deduplicated batch twice leaves the trip and
breadcrumb tables exactly as one load does; but the counts the second load
reports are the staged row counts of the batch — the same values as the first
load, not zero — because the source counts `tmp_*` rows before the
conflict-skipping insert. -/
theorem c3_second_load_same_state_same_counts (env : Env) (store : Store)
    (df : List InRow) (r1 r2 : LoadResult)
    (h1 : load_breadcrumb_data env store df = .ok r1)
    (h2 : load_breadcrumb_data env r1.store df = .ok r2) :
    r2.store = r1.store
      ∧ r2.new_trip_rows = r1.new_trip_rows
      ∧ r2.new_breadcrumb_rows = r1.new_breadcrumb_rows
      ∧ r2.ret = r1.ret := by
  simp only [load_breadcrumb_data] at h1 h2
  split at h1
  · injection h1 with h1e
    subst h1e
    rw [if_pos (by assumption)] at h2
    injection h2 with h2e
    subst h2e
    exact ⟨rfl, rfl, rfl, rfl⟩
  · split at h1
    · exact absurd h1 (by simp)
    · injection h1 with h1e
      subst h1e
      rw [if_neg (by assumption)] at h2
      rename_i hconn
      rw [hconn] at h2
      injection h2 with h2e
      subst h2e
      refine ⟨?_, rfl, rfl, rfl⟩
      simp only
      rw [insert_on_conflict_idem, insert_on_conflict_idem]

/-- A complete environment and concrete small stores for evaluations. -/
def env0 : Env :=
  [("DB_NAME", "db"), ("DB_USER", "user"), ("DB_PASSWORD", "pw"),
   ("DB_HOST", "host")]

def store0 : Store := ⟨[], [], []⟩

def store1 : Store :=
  ⟨[⟨7, -1, 9, "Weekday", "0"⟩], [⟨5, 45, -122, 3, 7⟩], []⟩

/-- C3 counterexample: a second load of the same one-row batch leaves the
store unchanged, but reports 1 new trip row and 1 new breadcrumb row — not
zero, refuting the claim's "zero new rows" part. -/
theorem c3_second_load_counts_not_zero :
    load_breadcrumb_data env0 store0 df1 = .ok ⟨store1, true, 1, 1, 1⟩
      ∧ load_breadcrumb_data env0 store1 df1 = .ok ⟨store1, true, 1, 1, 1⟩
      ∧ (1 : Nat) ≠ 0 :=
  ⟨rfl, rfl, by decide⟩

theorem c3_second_load_same_state_same_counts_witness :
    store1 = store1 ∧ (1 : Nat) = 1 ∧ (1 : Nat) = 1 ∧ (1 : ℤ) = 1 :=
  c3_second_load_same_state_same_counts env0 store0 df1
    ⟨store1, true, 1, 1, 1⟩ ⟨store1, true, 1, 1, 1⟩ rfl rfl

theorem connect_env_error_of_missing (env : Env)
    (h : getenv env "DB_NAME" = none ∨ getenv env "DB_USER" = none
        ∨ getenv env "DB_PASSWORD" = none ∨ getenv env "DB_HOST" = none) :
    ∃ m, connect_env env = .error m := by
  cases hn : getenv env "DB_NAME" with
  | none =>
      refine ⟨"Missing required environment variable: " ++ "DB_NAME", ?_⟩
      simp [connect_env, require_env, hn]
  | some v1 =>
      cases hu : getenv env "DB_USER" with
      | none =>
          refine ⟨"Missing required environment variable: " ++ "DB_USER", ?_⟩
          simp [connect_env, require_env, hn, hu]
      | some v2 =>
          cases hp : getenv env "DB_PASSWORD" with
          | none =>
              refine ⟨"Missing required environment variable: "
                ++ "DB_PASSWORD", ?_⟩
              simp [connect_env, require_env, hn, hu, hp]
          | some v3 =>
              cases hh : getenv env "DB_HOST" with
              | none =>
                  refine ⟨"Missing required environment variable: "
                    ++ "DB_HOST", ?_⟩
                  simp [connect_env, require_env, hn, hu, hp, hh]
              | some v4 => rcases h with h | h | h | h <;> simp_all

/-- C5 amended: when any of DB_NAME, DB_USER, DB_PASSWORD, DB_HOST is absent
and the batch is non-empty after filtering, `load_breadcrumb_data` raises
before any connection is opened (no partial store operation), but in the
subscriber this exception is caught by `process_buffer`'s handler: the batch
is discarded, the store is untouched, and the process keeps running — it does
not abort, and the check happens at flush time, not at startup. -/
theorem c5_missing_env_caught_not_fatal (env : Env) (store : Store)
    (df : List InRow)
    (hmiss : getenv env "DB_NAME" = none ∨ getenv env "DB_USER" = none
        ∨ getenv env "DB_PASSWORD" = none ∨ getenv env "DB_HOST" = none)
    (hne : breadcrumb_staged df ≠ []) :
    (∃ m, load_breadcrumb_data env store df = Except.error m)
      ∧ process_buffer_catch env store df = (store, false) := by
  obtain ⟨m, hm⟩ := connect_env_error_of_missing env hmiss
  cases hbc : breadcrumb_staged df with
  | nil => exact absurd hbc hne
  | cons b bs =>
      have hload : load_breadcrumb_data env store df = .error m := by
        simp [load_breadcrumb_data, hbc, hm]
      exact ⟨⟨m, hload⟩, by simp [process_buffer_catch, hload]⟩

def env_no_host : Env :=
  [("DB_NAME", "db"), ("DB_USER", "user"), ("DB_PASSWORD", "pw")]

/-- C5 counterexample: with DB_HOST absent and a non-empty batch, the load
raises, `process_buffer` catches it, and the subscriber continues with the
store untouched — the process does not abort. -/
theorem c5_missing_env_not_process_abort :
    load_breadcrumb_data env_no_host store0 df1
        = Except.error "Missing required environment variable: DB_HOST"
      ∧ process_buffer_catch env_no_host store0 df1 = (store0, false) :=
  ⟨rfl, rfl⟩

theorem c5_missing_env_caught_not_fatal_witness :
    (∃ m, load_breadcrumb_data env_no_host store0 df1 = Except.error m)
      ∧ process_buffer_catch env_no_host store0 df1 = (store0, false) :=
  c5_missing_env_caught_not_fatal env_no_host store0 df1
    (Or.inr (Or.inr (Or.inr rfl))) (by decide)

/- ----------------------------------------------------------------
   Stop-event load (load_to_postgres.py, `load_stop_event_data`).
   PostgreSQL resolves `ON CONFLICT (cols) DO NOTHING` by inferring an
   arbiter index whose columns are exactly `cols`; when none exists the
   statement raises, independent of the staged data.
   ---------------------------------------------------------------- -/

/-- The unique constraints on `stop_event`: just `PRIMARY KEY (trip_id)`
(see `create_stop_event_table`). -/
def unique_constraints_stop_event : List (List String) := [["trip_id"]]

/-- Arbiter-index inference: some unique constraint's column set equals
the conflict target's column set. -/
def conflict_target_matches (constraints : List (List String))
    (target : List String) : Bool :=
  constraints.any fun c =>
    c.all (fun x => target.contains x) && target.all (fun x => c.contains x)

/-- `load_stop_event_data(df)`: connect (evaluating the four `require_env`
calls), stage the rows, count them, then run
`INSERT INTO stop_event ... ON CONFLICT (trip_id, vehicle_number) DO NOTHING`
followed by the `UPDATE trip ... FROM stop_event` integration, all inside one
transaction (`with psycopg2.connect(...)`), so a raised statement rolls the
whole load back.  The matched branch mirrors what the statements would do if
the conflict target were inferable (the UPDATE would also need the
integer-to-text cast on `direction`, written here as `toString`). -/
def load_stop_event_data (env : Env) (store : Store)
    (df : List StopEventRow) : Except String (Store × Nat) :=
  match connect_env env with
  | .error e => .error e
  | .ok _ =>
      let new_stop_rows := df.length
      if conflict_target_matches unique_constraints_stop_event
          ["trip_id", "vehicle_number"] then
        let se2 := insert_on_conflict
          (fun r => (r.trip_id, r.vehicle_number)) store.stop_event df
        let trip2 := store.trip.map fun t =>
          match se2.find? (fun se => se.trip_id == t.trip_id) with
          | some se =>
              { t with route_id := se.route_number,
                       service_key := se.service_key,
                       direction := toString se.direction }
          | none => t
        .ok (⟨trip2, store.breadcrumb, se2⟩, new_stop_rows)
      else
        .error
          "there is no unique or exclusion constraint matching the ON CONFLICT specification"

/-- The failing stop-event input of C7: trip 123, route 5. -/
def stop_row_123 : StopEventRow := ⟨123, 45, 5, "Weekday", 0⟩

/-- A store in which trip 123 already exists with route_id 7. -/
def store_trip_123 : Store := ⟨[⟨123, 7, 45, "Weekday", "0"⟩], [], []⟩

/-- C7: evaluating the stop-event load at its failing input.  The conflict
target (trip_id, vehicle_number) matches no unique constraint of
`stop_event` — its only unique constraint is the primary key on trip_id —
so the INSERT raises and the transaction rolls back: the Trip row for 123
keeps route_id 7 instead of receiving route_id 5 as the claim requires. -/
theorem c7_stop_event_load_always_errors :
    load_stop_event_data env0 store_trip_123 [stop_row_123]
      = Except.error
          "there is no unique or exclusion constraint matching the ON CONFLICT specification"
      ∧ conflict_target_matches unique_constraints_stop_event
          ["trip_id", "vehicle_number"] = false := by
  constructor <;> rfl

/- ----------------------------------------------------------------
   Transform sequencing at column level (subscriber.py).  For C6 what
   matters is which column names each stage requires and creates: the
   `except` arm of `add_tstamp_column` writes the null marker into a
   column literally named "tstamp", while every later stage looks up
   "TSTAMP".  A frame is its list of column names; a stage raising a
   pandas KeyError becomes Except.error.
   ---------------------------------------------------------------- -/

structure ColFrame where
  cols : List String
deriving Repr, DecidableEq

/-- `add_tstamp_column`: the `try` block reads `df['OPD_DATE']` and
`df['ACT_TIME']` (KeyError when absent) and on success creates TIME_DELTA and
TSTAMP; the `except` arm executes `df["tstamp"] = pd.NaT; return df`,
creating only the lower-case column. -/
def add_tstamp_column (f : ColFrame) : ColFrame :=
  if "OPD_DATE" ∈ f.cols ∧ "ACT_TIME" ∈ f.cols then
    ⟨f.cols ++ ["TIME_DELTA", "TSTAMP"]⟩
  else
    ⟨f.cols ++ ["tstamp"]⟩

/-- `add_speed_column`: `df.sort_values(by=["TSTAMP", "EVENT_NO_TRIP"])`
raises KeyError on a missing sort key; the per-group `compute_speed` reads
METERS and ACT_TIME; on success the SPEED column is added. -/
def add_speed_column (f : ColFrame) : Except String ColFrame :=
  if "TSTAMP" ∈ f.cols ∧ "EVENT_NO_TRIP" ∈ f.cols
      ∧ "METERS" ∈ f.cols ∧ "ACT_TIME" ∈ f.cols then
    .ok ⟨f.cols ++ ["SPEED"]⟩
  else .error "KeyError"

/-- `add_service_key_column`: `df["TSTAMP"].apply(...)` then adds SERVICE_KEY. -/
def add_service_key_column (f : ColFrame) : Except String ColFrame :=
  if "TSTAMP" ∈ f.cols then .ok ⟨f.cols ++ ["SERVICE_KEY"]⟩
  else .error "KeyError"

/-- `enforce_speed_limit`: filters on `df["SPEED"]`, keeping the columns. -/
def enforce_speed_limit (f : ColFrame) : Except String ColFrame :=
  if "SPEED" ∈ f.cols then .ok f else .error "KeyError"

/-- `remove_null_gps_coordinates`: filters on the two GPS columns. -/
def remove_null_gps_coordinates (f : ColFrame) : Except String ColFrame :=
  if "GPS_LATITUDE" ∈ f.cols ∧ "GPS_LONGITUDE" ∈ f.cols then .ok f
  else .error "KeyError"

/-- The stage sequence of `process_buffer` after the drain, at column level,
with its surrounding `try/except`: the result records whether the batch
reached `load_breadcrumb_data` (`false` = an exception was caught and the
drained batch was discarded). -/
def process_buffer_reaches_load (cols : List String) : Bool :=
  let f1 := add_tstamp_column ⟨cols⟩
  match add_speed_column f1 with
  | .error _ => false
  | .ok f2 =>
      match add_service_key_column f2 with
      | .error _ => false
      | .ok f3 =>
          match enforce_speed_limit f3 with
          | .error _ => false
          | .ok f4 =>
              match remove_null_gps_coordinates f4 with
              | .error _ => false
              | .ok _ => true

/-- A batch whose messages carry every required telemetry field except
OPD_DATE, making timestamp derivation fail inside `add_tstamp_column`. -/
def batch_missing_opd_date : List String :=
  ["EVENT_NO_TRIP", "VEHICLE_ID", "ACT_TIME", "METERS",
   "GPS_LATITUDE", "GPS_LONGITUDE", "GPS_HDOP"]

/-- C6: evaluating the code at the failing input.  When timestamp derivation
fails, the `except` arm adds the null marker under the lower-case name
"tstamp", no "TSTAMP" column exists, so the next stage's sort raises KeyError
and the outer handler of `process_buffer` drops the whole batch: the batch
does NOT proceed through speed derivation, classification, filters or load,
contradicting the claim (and the code's own evident intent of proceeding with
a null marker). -/
theorem c6_tstamp_failure_drops_batch :
    (add_tstamp_column ⟨batch_missing_opd_date⟩).cols
        = batch_missing_opd_date ++ ["tstamp"]
      ∧ "TSTAMP" ∉ (add_tstamp_column ⟨batch_missing_opd_date⟩).cols
      ∧ process_buffer_reaches_load batch_missing_opd_date = false := by
  refine ⟨?_, by decide, ?_⟩ <;> rfl

/- ----------------------------------------------------------------
   Lock discipline (subscriber.py, C4).  Each relevant function body is
   embedded as the sequence of lock and pipeline events it performs, in
   source order; an event happens under the lock when, in its prefix of
   the trace, acquires outnumber releases.
   ---------------------------------------------------------------- -/

inductive LockEv where
  | acquire
  | release
  | append_ev
  | drain_ev
  | validate_ev
  | transform_ev
  | load_ev
deriving Repr, DecidableEq, BEq

/-- `process_message`: `with df_lock: message_buffer.append(...)`. -/
def process_message_trace : List LockEv :=
  [.acquire, .append_ev, .release]

/-- `process_buffer`: drain, `run_all_validations`, the three transform
stages and post-filters, then `load_breadcrumb_data`. -/
def process_buffer_trace : List LockEv :=
  [.drain_ev, .validate_ev, .transform_ev, .load_ev]

/-- `process_and_save`, idle-flush branch:
`with df_lock: if message_buffer: process_buffer()` — the whole pipeline call
sits inside the `with` block. -/
def process_and_save_trace : List LockEv :=
  [LockEv.acquire] ++ process_buffer_trace ++ [LockEv.release]

/-- `shutdown_signal_handler`: `with df_lock: process_buffer()`. -/
def shutdown_signal_trace : List LockEv :=
  [LockEv.acquire] ++ process_buffer_trace ++ [LockEv.release]

/-- The event at index `i` of `tr` executes while `df_lock` is held. -/
def lock_held_at (tr : List LockEv) (i : Nat) : Bool :=
  decide ((tr.take (i + 1)).count LockEv.release
    < (tr.take (i + 1)).count LockEv.acquire)

/-- C4 counterexample: in both flush paths the load step (index 4 of the
trace) executes while the Buffer's lock is held — the lock IS held across
validation, transformation and load, refuting the claim. -/
theorem c4_lock_held_across_load :
    process_and_save_trace.getD 4 LockEv.release = LockEv.load_ev
      ∧ lock_held_at process_and_save_trace 4 = true
      ∧ shutdown_signal_trace.getD 4 LockEv.release = LockEv.load_ev
      ∧ lock_held_at shutdown_signal_trace 4 = true := by decide

/-- C4 amended: during every flush — idle-triggered or shutdown-triggered —
the lock is acquired before the drain and released only after the load
completes, so the drain, validation, transformation and load steps all run
under the lock (blocking concurrent intake appends for the whole flush);
on the intake path the lock is held for the append. -/
theorem c4_flush_holds_lock_throughout :
    ([0, 1, 2, 3, 4].all fun i => lock_held_at process_and_save_trace i) = true
      ∧ ([0, 1, 2, 3, 4].all fun i => lock_held_at shutdown_signal_trace i) = true
      ∧ lock_held_at process_message_trace 1 = true := by decide
